import Mathlib

/-!
Verification development for the mod-ollama-chat OpenRouter API client
(src/mod-ollama-chat_api.cpp). The C++ module is shallowly embedded:

* `Config` collects the process-wide `g_OpenRouter*` configuration globals.
* `ConstructOpenRouterRequest` mirrors the request builder; the built JSON
  object has a fixed key set, so it is embedded as a record whose `Option`
  fields model presence/absence of the optional keys.
* `stoi` models `std::stoi` (leading C whitespace, optional sign, at least
  one digit, trailing characters ignored, 32-bit int range; both
  `invalid_argument` and `out_of_range` surface as `none` because the
  caller catches them).
* `Json` and `jsonParse` model `nlohmann::json` values and
  `nlohmann::json::parse` (strict RFC 8259 grammar: no leading zeros,
  string escapes with surrogate pairs, unescaped control characters
  rejected, whole input consumed, duplicate object keys resolved
  last-wins, leading BOM skipped).
* `ParseOpenRouterResponse` mirrors the response parser; C++ exceptions
  become an `Except ParseErr` result (`parseFailed` for
  `json::parse_error`, `apiError`/`invalidFormat` for the two
  `runtime_error` throws, `typeError` for `nlohmann::json::type_error`
  raised by `get<std::string>` or `operator[]` on a wrongly typed value).
* `HandleOpenRouterErrors` returns `Option HttpErr` in place of throwing.
* `QueryOllamaAPI` threads an abstract transport `World`
  (curl initialization success, and the outcome of `curl_easy_perform`);
  the result records the reply together with how many network calls were
  made and whether a request was built, so short-circuit claims are
  expressible.
-/

/-- A role/content entry of the request's `messages` array. -/
structure ChatMessage where
  role : String
  content : String
deriving DecidableEq

/-- The constructed OpenRouter request object. The C++ builds an
`nlohmann::json` object whose keys are drawn from a fixed set, so the
object is embedded as a record; an `Option` field is `none` exactly when
the corresponding key is absent from the JSON object. -/
structure Request where
  model : String
  messages : List ChatMessage
  temperature : Option Rat
  top_p : Option Rat
  top_k : Option Int
  max_tokens : Option Int
  seed : Option Int
  stream : Bool
deriving DecidableEq

/-- The `g_OpenRouter*` / `g_DebugEnabled` configuration globals read by
the client. Floating-point sampling parameters are modelled as exact
rationals. -/
structure Config where
  openRouterUrl : String
  openRouterApiKey : String
  openRouterModel : String
  openRouterSystemPrompt : String
  openRouterTemperature : Rat
  openRouterTopP : Rat
  openRouterTopK : Int
  openRouterMaxTokens : Int
  openRouterSeed : String
  openRouterSiteUrl : String
  openRouterSiteName : String
  debugEnabled : Bool

/-- One digit accumulation step used to read a decimal digit run. -/
def digitsToNat (ds : List Char) : Nat :=
  ds.foldl (fun n c => n * 10 + (c.toNat - '0'.toNat)) 0

/-- C `isspace` in the default locale, as consumed by `std::stoi`
(via `strtol`): space, tab, newline, vertical tab, form feed, carriage
return. -/
def cIsSpace (c : Char) : Bool :=
  c == ' ' || c == '\t' || c == '\n' || c == '\x0b' || c == '\x0c' || c == '\r'

/-- Model of `std::stoi` as used at `mod-ollama-chat_api.cpp:77`: skip
leading C whitespace, read an optional sign and then at least one decimal
digit, ignore anything after the digit run, and require the value to fit
a 32-bit `int`. `none` stands for either of the exceptions
(`invalid_argument`, `out_of_range`) that the surrounding `catch`
swallows. -/
def stoi (s : String) : Option Int :=
  let cs := s.data.dropWhile cIsSpace
  let signAndRest : Bool × List Char :=
    match cs with
    | '-' :: r => (true, r)
    | '+' :: r => (false, r)
    | _ => (false, cs)
  let ds := signAndRest.2.takeWhile Char.isDigit
  if ds.isEmpty then none
  else
    let v : Int := (digitsToNat ds : Int)
    let v := if signAndRest.1 then -v else v
    if -2147483648 ≤ v ∧ v ≤ 2147483647 then some v else none

/-- Embedding of `ConstructOpenRouterRequest`
(mod-ollama-chat_api.cpp:42-90): system message first when the configured
system prompt is non-empty, then the user message with the caller's
prompt; each sampling key only when it differs from its hard-coded
default; the seed only when the configured string is non-empty and
`std::stoi` succeeds; `stream` always `false`. -/
def ConstructOpenRouterRequest (cfg : Config) (prompt : String) : Request :=
  { model := cfg.openRouterModel
    messages :=
      (if cfg.openRouterSystemPrompt ≠ "" then
        [{ role := "system", content := cfg.openRouterSystemPrompt }]
      else []) ++ [{ role := "user", content := prompt }]
    temperature :=
      if cfg.openRouterTemperature ≠ (0.7 : Rat) then some cfg.openRouterTemperature else none
    top_p :=
      if cfg.openRouterTopP ≠ (0.9 : Rat) then some cfg.openRouterTopP else none
    top_k := if cfg.openRouterTopK > 0 then some cfg.openRouterTopK else none
    max_tokens := if cfg.openRouterMaxTokens > 0 then some cfg.openRouterMaxTokens else none
    seed := if cfg.openRouterSeed ≠ "" then stoi cfg.openRouterSeed else none
    stream := false }

/-- The HTTP-level errors thrown by `HandleOpenRouterErrors`
(mod-ollama-chat_api.cpp:23-39), one constructor per `throw` site; each
carries the raw response body the thrown message embeds. -/
inductive HttpErr where
  | badRequest (body : String)
  | unauthorized (body : String)
  | paymentRequired (body : String)
  | rateLimited (body : String)
  | generic (code : Int) (body : String)
deriving DecidableEq

/-- Embedding of `HandleOpenRouterErrors` (mod-ollama-chat_api.cpp:23-39):
`some` error in place of a `throw`, `none` when the function returns
normally. -/
def HandleOpenRouterErrors (response_code : Int) (response_body : String) : Option HttpErr :=
  if response_code = 400 then some (.badRequest response_body)
  else if response_code = 401 then some (.unauthorized response_body)
  else if response_code = 402 then some (.paymentRequired response_body)
  else if response_code = 429 then some (.rateLimited response_body)
  else if response_code ≥ 400 then some (.generic response_code response_body)
  else none

/-- An `nlohmann::json` value. Objects are association lists in insertion
order with unique keys (the DOM parser overwrites an earlier duplicate
key, see `objInsert`). Numbers are exact rationals. -/
inductive Json where
  | null
  | bool (b : Bool)
  | num (q : Rat)
  | str (s : String)
  | arr (elems : List Json)
  | obj (members : List (String × Json))

/-- `json::operator[](key)` guarded by `contains(key)`: `some` value when
the receiver is an object holding the key, otherwise `none` (nlohmann's
`contains` returns `false` on every non-object). -/
def Json.objLookup : Json → String → Option Json
  | .obj members, k => members.lookup k
  | _, _ => none

/-- nlohmann `json::contains(key)`. -/
def Json.containsKey (j : Json) (k : String) : Bool :=
  (j.objLookup k).isSome

/-- nlohmann `json::empty()`: `true` for `null`, emptiness for arrays and
objects, `false` for every other type. -/
def Json.isEmpty : Json → Bool
  | .null => true
  | .arr elems => elems.isEmpty
  | .obj members => members.isEmpty
  | _ => false

/-- JSON whitespace accepted between tokens. -/
def jsonWs (c : Char) : Bool :=
  c == ' ' || c == '\t' || c == '\n' || c == '\r'

/-- Drop leading JSON whitespace. -/
def skipWs : List Char → List Char
  | [] => []
  | c :: cs => if jsonWs c then skipWs cs else c :: cs

/-- Value of one hexadecimal digit. -/
def hexVal (c : Char) : Option Nat :=
  if '0' ≤ c ∧ c ≤ '9' then some (c.toNat - '0'.toNat)
  else if 'a' ≤ c ∧ c ≤ 'f' then some (c.toNat - 'a'.toNat + 10)
  else if 'A' ≤ c ∧ c ≤ 'F' then some (c.toNat - 'A'.toNat + 10)
  else none

/-- Four hexadecimal digits, as in a `\uXXXX` escape. -/
def hex4 : List Char → Option (Nat × List Char)
  | a :: b :: c :: d :: rest => do
    let va ← hexVal a
    let vb ← hexVal b
    let vc ← hexVal c
    let vd ← hexVal d
    some ((((va * 16 + vb) * 16 + vc) * 16 + vd), rest)
  | _ => none

/-- Body of a JSON string after the opening quote, with the accepted
escapes; a `\uXXXX` high surrogate must be followed by a low surrogate
(as nlohmann requires), a lone low surrogate is rejected, and unescaped
control characters below U+0020 are rejected. Consumes one unit of fuel
per character, so `length + 1` fuel always suffices. -/
def parseStringBody : Nat → List Char → List Char → Option (String × List Char)
  | 0, _, _ => none
  | _ + 1, [], _ => none
  | f + 1, c :: cs, acc =>
    if c == '"' then some (String.mk acc.reverse, cs)
    else if c == '\\' then
      match cs with
      | [] => none
      | e :: cs2 =>
        if e == '"' then parseStringBody f cs2 ('"' :: acc)
        else if e == '\\' then parseStringBody f cs2 ('\\' :: acc)
        else if e == '/' then parseStringBody f cs2 ('/' :: acc)
        else if e == 'b' then parseStringBody f cs2 ('\x08' :: acc)
        else if e == 'f' then parseStringBody f cs2 ('\x0c' :: acc)
        else if e == 'n' then parseStringBody f cs2 ('\n' :: acc)
        else if e == 'r' then parseStringBody f cs2 ('\r' :: acc)
        else if e == 't' then parseStringBody f cs2 ('\t' :: acc)
        else if e == 'u' then
          match hex4 cs2 with
          | none => none
          | some (n, cs3) =>
            if 0xD800 ≤ n ∧ n ≤ 0xDBFF then
              match cs3 with
              | '\\' :: 'u' :: cs4 =>
                match hex4 cs4 with
                | none => none
                | some (m, cs5) =>
                  if 0xDC00 ≤ m ∧ m ≤ 0xDFFF then
                    parseStringBody f cs5
                      (Char.ofNat (0x10000 + (n - 0xD800) * 0x400 + (m - 0xDC00)) :: acc)
                  else none
              | _ => none
            else if 0xDC00 ≤ n ∧ n ≤ 0xDFFF then none
            else parseStringBody f cs3 (Char.ofNat n :: acc)
        else none
    else if c.toNat < 0x20 then none
    else parseStringBody f cs (c :: acc)

/-- Fractional part of a number: either absent, or a dot followed by at
least one digit. -/
def parseFrac : List Char → Option (List Char × List Char)
  | '.' :: r =>
    let ds := r.takeWhile Char.isDigit
    if ds.isEmpty then none else some (ds, r.dropWhile Char.isDigit)
  | cs => some ([], cs)

/-- Exponent part of a number: either absent, or `e`/`E`, an optional
sign, and at least one digit. -/
def parseExp : List Char → Option (Int × List Char)
  | [] => some (0, [])
  | e :: r =>
    if e == 'e' || e == 'E' then
      let signAndRest : Int × List Char :=
        match r with
        | '+' :: rr => (1, rr)
        | '-' :: rr => (-1, rr)
        | _ => (1, r)
      let ds := signAndRest.2.takeWhile Char.isDigit
      if ds.isEmpty then none
      else some (signAndRest.1 * (digitsToNat ds : Int), signAndRest.2.dropWhile Char.isDigit)
    else some (0, e :: r)

/-- Exact rational value of a parsed number
`sign intDigits . fracDigits e exp`. -/
def mkNum (neg : Bool) (intDs fracDs : List Char) (e : Int) : Json :=
  let mantNat : Nat := digitsToNat (intDs ++ fracDs)
  let mant : Int := if neg then -(mantNat : Int) else (mantNat : Int)
  let scale : Int := e - (fracDs.length : Int)
  .num (if 0 ≤ scale then ((mant * (10 : Int) ^ scale.toNat : Int) : Rat)
        else mkRat mant ((10 : Nat) ^ (-scale).toNat))

/-- Fraction and exponent tail of a number, after the integer digits. -/
def parseNumTail (neg : Bool) (intDs : List Char) (rest : List Char) :
    Option (Json × List Char) := do
  let (fracDs, r2) ← parseFrac rest
  let (e, r3) ← parseExp r2
  some (mkNum neg intDs fracDs e, r3)

/-- A JSON number per RFC 8259 (as nlohmann accepts): optional minus, an
integer part with no superfluous leading zero, optional fraction,
optional exponent. -/
def parseNumber (cs : List Char) : Option (Json × List Char) :=
  let signAndRest : Bool × List Char :=
    match cs with
    | '-' :: r => (true, r)
    | _ => (false, cs)
  match signAndRest.2 with
  | [] => none
  | c :: r =>
    if c == '0' then
      match r with
      | d :: _ => if d.isDigit then none else parseNumTail signAndRest.1 ['0'] r
      | [] => parseNumTail signAndRest.1 ['0'] []
    else if c.isDigit then
      parseNumTail signAndRest.1 ((c :: r).takeWhile Char.isDigit)
        ((c :: r).dropWhile Char.isDigit)
    else none

/-- Insert a member into an object under construction; a duplicate key
overwrites the earlier value, as nlohmann's DOM callback does. -/
def objInsert : List (String × Json) → String → Json → List (String × Json)
  | [], k, v => [(k, v)]
  | (k0, v0) :: rest, k, v =>
    if k0 == k then (k0, v) :: rest else (k0, v0) :: objInsert rest k v

mutual

/-- One JSON value starting at the current (non-whitespace) position. -/
def parseValue : Nat → List Char → Option (Json × List Char)
  | 0, _ => none
  | f + 1, cs =>
    match cs with
    | 't' :: 'r' :: 'u' :: 'e' :: r => some (.bool true, r)
    | 'f' :: 'a' :: 'l' :: 's' :: 'e' :: r => some (.bool false, r)
    | 'n' :: 'u' :: 'l' :: 'l' :: r => some (.null, r)
    | '"' :: r =>
      match parseStringBody (r.length + 1) r [] with
      | some (s, rest) => some (.str s, rest)
      | none => none
    | '[' :: r =>
      match skipWs r with
      | ']' :: r2 => some (.arr [], r2)
      | r2 => parseElems f r2 []
    | '\x7b' :: r =>
      match skipWs r with
      | '\x7d' :: r2 => some (.obj [], r2)
      | r2 => parseMembers f r2 []
    | _ => parseNumber cs

/-- Comma-separated array elements up to the closing bracket. -/
def parseElems : Nat → List Char → List Json → Option (Json × List Char)
  | 0, _, _ => none
  | f + 1, cs, acc => do
    let (v, r) ← parseValue f (skipWs cs)
    match skipWs r with
    | ',' :: r2 => parseElems f r2 (v :: acc)
    | ']' :: r2 => some (.arr (v :: acc).reverse, r2)
    | _ => none

/-- Comma-separated `"key" : value` object members up to the closing
brace. -/
def parseMembers : Nat → List Char → List (String × Json) → Option (Json × List Char)
  | 0, _, _ => none
  | f + 1, cs, acc =>
    match skipWs cs with
    | '"' :: r => do
      let (k, r2) ← parseStringBody (r.length + 1) r []
      match skipWs r2 with
      | ':' :: r3 => do
        let (v, r4) ← parseValue f (skipWs r3)
        match skipWs r4 with
        | ',' :: r5 => parseMembers f r5 (objInsert acc k v)
        | '\x7d' :: r5 => some (.obj (objInsert acc k v), r5)
        | _ => none
      | _ => none
    | _ => none

end

/-- Model of `nlohmann::json::parse(s)`: skip a leading byte-order mark,
parse exactly one value, and require only whitespace to remain; `none`
stands for a thrown `nlohmann::json::parse_error`. The fuel
`2 * length + 2` bounds the recursion: every two units of fuel consume at
least one input character. -/
def jsonParse (s : String) : Option Json :=
  let cs :=
    match s.data with
    | '﻿' :: r => r
    | cs => cs
  match parseValue (2 * s.length + 2) (skipWs cs) with
  | some (j, rest) => if (skipWs rest).isEmpty then some j else none
  | none => none

/-- The failure modes of `ParseOpenRouterResponse`
(mod-ollama-chat_api.cpp:93-120), one constructor per distinct C++
exception: `parseFailed` for a caught `json::parse_error` (rethrown as
"Failed to parse JSON response"), `apiError` for the
"OpenRouter API Error" `runtime_error` (carrying the extracted message),
`invalidFormat` for the "Invalid response format" `runtime_error`, and
`typeError` for an `nlohmann::json::type_error` escaping from
`get<std::string>` or from `operator[]` applied to a wrongly typed
value. -/
inductive ParseErr where
  | parseFailed
  | apiError (msg : String)
  | invalidFormat
  | typeError
deriving DecidableEq

/-- nlohmann `get<std::string>()`: the string, or a thrown `type_error`
on any other value type. -/
def Json.getStr : Json → Except ParseErr String
  | .str s => .ok s
  | _ => .error .typeError

/-- Non-const `json::operator[](0)` as applied to the `choices` value: an
array yields its first element (index 0 after the guaranteed-non-empty
check; a `null` or empty array would be resized with `null`), any other
type throws `type_error`. -/
def jsonIndex0 : Json → Except ParseErr Json
  | .arr (x :: _) => .ok x
  | .arr [] => .ok .null
  | .null => .ok .null
  | _ => .error .typeError

/-- The body of `ParseOpenRouterResponse` after `json::parse` succeeded
(mod-ollama-chat_api.cpp:98-115), on the parsed value. -/
def ParseOpenRouterResponseJ (response : Json) : Except ParseErr String :=
  match response.objLookup "error" with
  | some err =>
    match err.objLookup "message" with
    | some m =>
      match m.getStr with
      | .ok s => .error (.apiError s)
      | .error e => .error e
    | none => .error (.apiError "API Error")
  | none =>
    match response.objLookup "choices" with
    | some choices =>
      if choices.isEmpty then .error .invalidFormat
      else
        match jsonIndex0 choices with
        | .error e => .error e
        | .ok choice =>
          match choice.objLookup "message" with
          | some msg =>
            match msg.objLookup "content" with
            | some c => c.getStr
            | none => .error .invalidFormat
          | none => .error .invalidFormat
    | none => .error .invalidFormat

/-- Embedding of `ParseOpenRouterResponse` (mod-ollama-chat_api.cpp:93-120):
parse the body, report malformed JSON as the distinct `parseFailed`
failure, otherwise inspect the parsed value. -/
def ParseOpenRouterResponse (response_json : String) : Except ParseErr String :=
  match jsonParse response_json with
  | none => .error .parseFailed
  | some response => ParseOpenRouterResponseJ response

/-- The transport environment `QueryOllamaAPI` runs in:
whether `curl_easy_init` returns a handle, and the outcome of
`curl_easy_perform` (`none` for a `CURLcode` other than `CURLE_OK`,
`some (code, body)` for a completed exchange with its HTTP status and
response body). -/
structure World where
  curlInitOk : Bool
  curlResult : Option (Int × String)

/-- Observable outcome of one `QueryOllamaAPI` call: the returned string,
how many network calls (`curl_easy_perform`) were made, and whether
`ConstructOpenRouterRequest` was invoked. -/
structure QueryResult where
  reply : String
  networkCalls : Nat
  builtRequest : Bool
deriving DecidableEq

/-- Embedding of `QueryOllamaAPI` (mod-ollama-chat_api.cpp:123-237). Every
C++ `catch` that maps a failure to a constant string becomes the matching
branch on the embedded result; request construction is total in the
model (its only C++ failure mode is allocation exhaustion), so the
"Error preparing request." branch has no reachable counterpart. -/
def QueryOllamaAPI (cfg : Config) (prompt : String) (w : World) : QueryResult :=
  if cfg.openRouterApiKey = "" then
    { reply := "AI service not properly configured.", networkCalls := 0, builtRequest := false }
  else if ¬ w.curlInitOk then
    { reply := "Hmm... I'm lost in thought.", networkCalls := 0, builtRequest := false }
  else
    let _requestData := ConstructOpenRouterRequest cfg prompt
    match w.curlResult with
    | none =>
      { reply := "Failed to reach OpenRouter AI.", networkCalls := 1, builtRequest := true }
    | some (response_code, responseBuffer) =>
      match HandleOpenRouterErrors response_code responseBuffer with
      | some _ =>
        { reply := "AI service error occurred.", networkCalls := 1, builtRequest := true }
      | none =>
        match ParseOpenRouterResponse responseBuffer with
        | .error _ =>
          { reply := "Error processing response.", networkCalls := 1, builtRequest := true }
        | .ok botReply =>
          if botReply = "" then
            { reply := "I'm having trouble understanding.", networkCalls := 1, builtRequest := true }
          else
            { reply := botReply, networkCalls := 1, builtRequest := true }

/-- The constant user-facing strings `QueryOllamaAPI` can return in place
of a model reply, one per early-return site in
mod-ollama-chat_api.cpp:123-237. -/
def fallbackStrings : List String :=
  [ "AI service not properly configured."
  , "Hmm... I'm lost in thought."
  , "Error preparing request."
  , "Failed to reach OpenRouter AI."
  , "AI service error occurred."
  , "Error processing response."
  , "I'm having trouble understanding." ]

/-- A concrete configuration used to instantiate proved theorems:
API key set, empty system prompt, every sampling parameter at its
documented default. -/
def baseCfg : Config :=
  { openRouterUrl := "https://openrouter.ai/api/v1/chat/completions"
    openRouterApiKey := "sk-test"
    openRouterModel := "openai/gpt-4o"
    openRouterSystemPrompt := ""
    openRouterTemperature := 0.7
    openRouterTopP := 0.9
    openRouterTopK := 0
    openRouterMaxTokens := 0
    openRouterSeed := ""
    openRouterSiteUrl := ""
    openRouterSiteName := ""
    debugEnabled := false }

/-- C1: with an empty configured API key, `QueryOllamaAPI` returns exactly
"AI service not properly configured." for every prompt and every transport
environment, without building a request and without any network call. -/
theorem QueryOllamaAPI_no_api_key (cfg : Config) (prompt : String) (w : World)
    (hkey : cfg.openRouterApiKey = "") :
    QueryOllamaAPI cfg prompt w =
      { reply := "AI service not properly configured."
        networkCalls := 0
        builtRequest := false } := by
  simp [QueryOllamaAPI, hkey]

/-- Witness for C1 at a concrete configuration with an empty API key and a
transport that would have succeeded. -/
theorem QueryOllamaAPI_no_api_key_witness :
    QueryOllamaAPI { baseCfg with openRouterApiKey := "" } "hello there"
      { curlInitOk := true, curlResult := some (200, "\x7b\x7d") } =
      { reply := "AI service not properly configured."
        networkCalls := 0
        builtRequest := false } :=
  QueryOllamaAPI_no_api_key _ _ _ rfl

/-- C10: when `curl_easy_init` fails (and an API key is configured),
`QueryOllamaAPI` returns exactly "Hmm... I'm lost in thought." without
building a request and without any network call. -/
theorem QueryOllamaAPI_curl_init_failure (cfg : Config) (prompt : String) (w : World)
    (hkey : cfg.openRouterApiKey ≠ "") (hcurl : w.curlInitOk = false) :
    QueryOllamaAPI cfg prompt w =
      { reply := "Hmm... I'm lost in thought."
        networkCalls := 0
        builtRequest := false } := by
  simp [QueryOllamaAPI, hkey, hcurl]

/-- Witness for C10 at a concrete configuration with an API key and a
failing curl initialization. -/
theorem QueryOllamaAPI_curl_init_failure_witness :
    QueryOllamaAPI baseCfg "hello there"
      { curlInitOk := false, curlResult := none } =
      { reply := "Hmm... I'm lost in thought."
        networkCalls := 0
        builtRequest := false } :=
  QueryOllamaAPI_curl_init_failure _ _ _ (by decide) rfl

/-- C3: the constructed message list is
`[system, user]` when the configured system prompt is non-empty and
`[user]` when it is empty; in both cases the user message carries the
caller's prompt verbatim. -/
theorem ConstructOpenRouterRequest_messages (cfg : Config) (prompt : String) :
    (cfg.openRouterSystemPrompt ≠ "" →
      (ConstructOpenRouterRequest cfg prompt).messages.length = 2 ∧
      (ConstructOpenRouterRequest cfg prompt).messages.map ChatMessage.role =
        ["system", "user"] ∧
      (ConstructOpenRouterRequest cfg prompt).messages =
        [ { role := "system", content := cfg.openRouterSystemPrompt }
        , { role := "user", content := prompt } ]) ∧
    (cfg.openRouterSystemPrompt = "" →
      (ConstructOpenRouterRequest cfg prompt).messages.length = 1 ∧
      (ConstructOpenRouterRequest cfg prompt).messages.map ChatMessage.role = ["user"] ∧
      (ConstructOpenRouterRequest cfg prompt).messages =
        [ { role := "user", content := prompt } ]) := by
  constructor
  · intro hsys
    simp [ConstructOpenRouterRequest, hsys]
  · intro hsys
    simp [ConstructOpenRouterRequest, hsys]

/-- Witness for C3 at two concrete configurations, one with a system
prompt and one without. -/
theorem ConstructOpenRouterRequest_messages_witness :
    (ConstructOpenRouterRequest
        { baseCfg with openRouterSystemPrompt := "You are a bot." } "hi").messages =
      [ { role := "system", content := "You are a bot." }
      , { role := "user", content := "hi" } ] ∧
    (ConstructOpenRouterRequest baseCfg "hi").messages =
      [ { role := "user", content := "hi" } ] :=
  ⟨((ConstructOpenRouterRequest_messages
      { baseCfg with openRouterSystemPrompt := "You are a bot." } "hi").1
      (by decide)).2.2,
   ((ConstructOpenRouterRequest_messages baseCfg "hi").2 rfl).2.2⟩

/-- C4: `HandleOpenRouterErrors` reports an error exactly for status codes
at least 400; 400, 401, 402 and 429 map to the invalid-parameters,
unauthorized, billing and rate-limit kinds, each carrying the original
response body; every other code at least 400 maps to the generic HTTP
error carrying the code and body. -/
theorem HandleOpenRouterErrors_classification (code : Int) (body : String) :
    ((HandleOpenRouterErrors code body).isSome ↔ 400 ≤ code) ∧
    HandleOpenRouterErrors 400 body = some (.badRequest body) ∧
    HandleOpenRouterErrors 401 body = some (.unauthorized body) ∧
    HandleOpenRouterErrors 402 body = some (.paymentRequired body) ∧
    HandleOpenRouterErrors 429 body = some (.rateLimited body) ∧
    (400 ≤ code → code ≠ 400 → code ≠ 401 → code ≠ 402 → code ≠ 429 →
      HandleOpenRouterErrors code body = some (.generic code body)) := by
  refine ⟨?_, by simp [HandleOpenRouterErrors], by simp [HandleOpenRouterErrors],
    by simp [HandleOpenRouterErrors], by simp [HandleOpenRouterErrors], ?_⟩
  · unfold HandleOpenRouterErrors
    split
    · simp; omega
    · split
      · simp; omega
      · split
        · simp; omega
        · split
          · simp; omega
          · split
            · simp; omega
            · simp; omega
  · intro h400 h1 h2 h3 h4
    simp [HandleOpenRouterErrors, h1, h2, h3, h4, h400]

/-- Witness for C4: a 401 carries the body as an unauthorized error, and
the uncased status 500 yields the generic error with code and body. -/
theorem HandleOpenRouterErrors_classification_witness :
    HandleOpenRouterErrors 401 "denied" = some (.unauthorized "denied") ∧
    HandleOpenRouterErrors 500 "oops" = some (.generic 500 "oops") ∧
    (HandleOpenRouterErrors 500 "oops").isSome :=
  ⟨(HandleOpenRouterErrors_classification 401 "denied").2.2.1,
   (HandleOpenRouterErrors_classification 500 "oops").2.2.2.2.2
     (by decide) (by decide) (by decide) (by decide) (by decide),
   (HandleOpenRouterErrors_classification 500 "oops").1.mpr (by decide)⟩

/-- C8: with every sampling parameter at its documented default
(temperature 0.7, top-p 0.9, top-k and max-tokens not positive) the
request carries none of the four keys; conversely each key is present
exactly when its configured value differs from that default. -/
theorem ConstructOpenRouterRequest_default_omission (cfg : Config) (prompt : String) :
    (cfg.openRouterTemperature = 0.7 → cfg.openRouterTopP = 0.9 →
      cfg.openRouterTopK ≤ 0 → cfg.openRouterMaxTokens ≤ 0 →
      (ConstructOpenRouterRequest cfg prompt).temperature = none ∧
      (ConstructOpenRouterRequest cfg prompt).top_p = none ∧
      (ConstructOpenRouterRequest cfg prompt).top_k = none ∧
      (ConstructOpenRouterRequest cfg prompt).max_tokens = none) ∧
    ((ConstructOpenRouterRequest cfg prompt).temperature.isSome ↔
      cfg.openRouterTemperature ≠ 0.7) ∧
    ((ConstructOpenRouterRequest cfg prompt).top_p.isSome ↔
      cfg.openRouterTopP ≠ 0.9) ∧
    ((ConstructOpenRouterRequest cfg prompt).top_k.isSome ↔
      0 < cfg.openRouterTopK) ∧
    ((ConstructOpenRouterRequest cfg prompt).max_tokens.isSome ↔
      0 < cfg.openRouterMaxTokens) := by
  refine ⟨?_, ?_, ?_, ?_, ?_⟩
  · intro ht hp hk hm
    have hk' : ¬ cfg.openRouterTopK > 0 := by omega
    have hm' : ¬ cfg.openRouterMaxTokens > 0 := by omega
    simp [ConstructOpenRouterRequest, ht, hp, hk', hm']
  · by_cases ht : cfg.openRouterTemperature = 0.7 <;>
      simp [ConstructOpenRouterRequest, ht]
  · by_cases hp : cfg.openRouterTopP = 0.9 <;>
      simp [ConstructOpenRouterRequest, hp]
  · by_cases hk : cfg.openRouterTopK > 0 <;>
      simp [ConstructOpenRouterRequest, hk]
  · by_cases hm : cfg.openRouterMaxTokens > 0 <;>
      simp [ConstructOpenRouterRequest, hm]

/-- Witness for C8 at the all-defaults configuration and at a
configuration differing in every sampling parameter. -/
theorem ConstructOpenRouterRequest_default_omission_witness :
    ((ConstructOpenRouterRequest baseCfg "hi").temperature = none ∧
     (ConstructOpenRouterRequest baseCfg "hi").top_p = none ∧
     (ConstructOpenRouterRequest baseCfg "hi").top_k = none ∧
     (ConstructOpenRouterRequest baseCfg "hi").max_tokens = none) ∧
    (ConstructOpenRouterRequest
      { baseCfg with openRouterTemperature := 1, openRouterTopP := 0.5,
                     openRouterTopK := 40, openRouterMaxTokens := 256 }
      "hi").temperature.isSome :=
  ⟨(ConstructOpenRouterRequest_default_omission baseCfg "hi").1
      rfl rfl (by decide) (by decide),
   (ConstructOpenRouterRequest_default_omission _ "hi").2.1.mpr (by norm_num)⟩

/-- C9: for a non-empty configured seed string, request construction is
total and its `seed` field is exactly the result of the `std::stoi`
model: absent when parsing fails, the parsed integer when it succeeds. -/
theorem ConstructOpenRouterRequest_seed (cfg : Config) (prompt : String)
    (hseed : cfg.openRouterSeed ≠ "") :
    (stoi cfg.openRouterSeed = none →
      (ConstructOpenRouterRequest cfg prompt).seed = none) ∧
    (∀ v : Int, stoi cfg.openRouterSeed = some v →
      (ConstructOpenRouterRequest cfg prompt).seed = some v) := by
  constructor
  · intro hp
    simp [ConstructOpenRouterRequest, hseed, hp]
  · intro v hp
    simp [ConstructOpenRouterRequest, hseed, hp]

/-- Witness for C9 at the unparsable seed "abc" and the parsable seed
"42". -/
theorem ConstructOpenRouterRequest_seed_witness :
    (ConstructOpenRouterRequest { baseCfg with openRouterSeed := "abc" } "hi").seed = none ∧
    (ConstructOpenRouterRequest { baseCfg with openRouterSeed := "42" } "hi").seed = some 42 :=
  ⟨(ConstructOpenRouterRequest_seed _ "hi" (by decide)).1 (by decide),
   (ConstructOpenRouterRequest_seed _ "hi" (by decide)).2 42 (by decide)⟩

/-- C5: for a body parsing to JSON with no top-level "error" key, a
non-empty "choices" array, and a first choice whose "message" object
carries a string "content" field, `ParseOpenRouterResponse` returns that
content string. -/
theorem ParseOpenRouterResponse_extracts_content
    (b : String) (j c m : Json) (rest : List Json) (s : String)
    (hparse : jsonParse b = some j)
    (herr : j.objLookup "error" = none)
    (hch : j.objLookup "choices" = some (Json.arr (c :: rest)))
    (hmsg : c.objLookup "message" = some m)
    (hcontent : m.objLookup "content" = some (Json.str s)) :
    ParseOpenRouterResponse b = .ok s := by
  have h0 : ParseOpenRouterResponse b = ParseOpenRouterResponseJ j := by
    simp [ParseOpenRouterResponse, hparse]
  rw [h0]
  unfold ParseOpenRouterResponseJ
  rw [herr, hch]
  simp [Json.isEmpty, jsonIndex0, hmsg, hcontent, Json.getStr]

/-- Witness for C5 at the body from the spec,
whose parse tree has one choice with content "hello". -/
theorem ParseOpenRouterResponse_extracts_content_witness :
    ParseOpenRouterResponse "\x7b\"choices\":[\x7b\"message\":\x7b\"content\":\"hello\"\x7d\x7d]\x7d" =
      .ok "hello" :=
  ParseOpenRouterResponse_extracts_content
    "\x7b\"choices\":[\x7b\"message\":\x7b\"content\":\"hello\"\x7d\x7d]\x7d"
    (Json.obj [("choices",
       Json.arr [Json.obj [("message", Json.obj [("content", Json.str "hello")])]])])
    (Json.obj [("message", Json.obj [("content", Json.str "hello")])])
    (Json.obj [("content", Json.str "hello")])
    [] "hello" rfl rfl rfl rfl rfl

/-- Counterexample for C6: for the well-formed body whose top-level
"error" object has the non-string "message" value `123`, the parser does
not raise the claimed application error carrying the "message" field; it
raises a type-mismatch error (`get<std::string>` throws
`nlohmann::json::type_error`, which is not the "OpenRouter API Error"
`runtime_error`). -/
theorem ParseOpenRouterResponse_nonstring_error_message :
    ParseOpenRouterResponse "\x7b\"error\":\x7b\"message\":123\x7d\x7d" =
      .error .typeError := rfl

/-- C6 (amended): with a top-level "error" object the parser never
returns reply text; the application error's message is the error
object's "message" field when that field holds a string, and the generic
label "API Error" when the field is absent; a non-string "message" value
raises a type-mismatch error instead. -/
theorem ParseOpenRouterResponse_error_object
    (b : String) (j : Json) (members : List (String × Json))
    (hparse : jsonParse b = some j)
    (herr : j.objLookup "error" = some (Json.obj members)) :
    (∀ s, ParseOpenRouterResponse b ≠ .ok s) ∧
    (members.lookup "message" = none →
      ParseOpenRouterResponse b = .error (.apiError "API Error")) ∧
    (∀ s, members.lookup "message" = some (Json.str s) →
      ParseOpenRouterResponse b = .error (.apiError s)) ∧
    (∀ m, members.lookup "message" = some m → (∀ s, m ≠ Json.str s) →
      ParseOpenRouterResponse b = .error .typeError) := by
  have h0 : ParseOpenRouterResponse b = ParseOpenRouterResponseJ j := by
    simp [ParseOpenRouterResponse, hparse]
  rw [h0]
  unfold ParseOpenRouterResponseJ
  rw [herr]
  simp only [Json.objLookup]
  refine ⟨?_, ?_, ?_, ?_⟩
  · intro s
    rcases hm : List.lookup "message" members with _ | m
    · simp [hm]
    · cases m <;> simp [hm, Json.getStr]
  · intro hm
    simp [hm]
  · intro s hm
    simp [hm, Json.getStr]
  · intro m hm hns
    cases m with
    | str s2 => exact absurd rfl (hns s2)
    | null => simp [hm, Json.getStr]
    | bool b2 => simp [hm, Json.getStr]
    | num q2 => simp [hm, Json.getStr]
    | arr elems2 => simp [hm, Json.getStr]
    | obj members2 => simp [hm, Json.getStr]

/-- Witness for the amended C6 at the body from the spec, whose "error"
object carries the string message "bad key". -/
theorem ParseOpenRouterResponse_error_object_witness :
    ParseOpenRouterResponse "\x7b\"error\":\x7b\"message\":\"bad key\"\x7d\x7d" =
      .error (.apiError "bad key") :=
  (ParseOpenRouterResponse_error_object
    "\x7b\"error\":\x7b\"message\":\"bad key\"\x7d\x7d"
    (Json.obj [("error", Json.obj [("message", Json.str "bad key")])])
    [("message", Json.str "bad key")]
    rfl rfl).2.2.1 "bad key" rfl

/-- C7: a body that is not well-formed JSON fails with the parse-failure
kind, a well-formed body lacking the expected shape (no "error" key and:
missing "choices", empty "choices", or a first choice without a
"message" or a "content" key) fails with the invalid-format kind, and the
two kinds are distinct. -/
theorem ParseOpenRouterResponse_failure_kinds :
    (∀ b : String, jsonParse b = none →
      ParseOpenRouterResponse b = .error .parseFailed) ∧
    (∀ (b : String) (j : Json), jsonParse b = some j →
      j.objLookup "error" = none → j.objLookup "choices" = none →
      ParseOpenRouterResponse b = .error .invalidFormat) ∧
    (∀ (b : String) (j : Json), jsonParse b = some j →
      j.objLookup "error" = none → j.objLookup "choices" = some (Json.arr []) →
      ParseOpenRouterResponse b = .error .invalidFormat) ∧
    (∀ (b : String) (j c : Json) (rest : List Json), jsonParse b = some j →
      j.objLookup "error" = none →
      j.objLookup "choices" = some (Json.arr (c :: rest)) →
      c.objLookup "message" = none →
      ParseOpenRouterResponse b = .error .invalidFormat) ∧
    (∀ (b : String) (j c m : Json) (rest : List Json), jsonParse b = some j →
      j.objLookup "error" = none →
      j.objLookup "choices" = some (Json.arr (c :: rest)) →
      c.objLookup "message" = some m → m.objLookup "content" = none →
      ParseOpenRouterResponse b = .error .invalidFormat) ∧
    ParseErr.parseFailed ≠ ParseErr.invalidFormat := by
  refine ⟨?_, ?_, ?_, ?_, ?_, by simp⟩
  · intro b hb
    simp [ParseOpenRouterResponse, hb]
  · intro b j hb herr hch
    have h0 : ParseOpenRouterResponse b = ParseOpenRouterResponseJ j := by
      simp [ParseOpenRouterResponse, hb]
    rw [h0]
    unfold ParseOpenRouterResponseJ
    rw [herr, hch]
  · intro b j hb herr hch
    have h0 : ParseOpenRouterResponse b = ParseOpenRouterResponseJ j := by
      simp [ParseOpenRouterResponse, hb]
    rw [h0]
    unfold ParseOpenRouterResponseJ
    rw [herr, hch]
    simp [Json.isEmpty]
  · intro b j c rest hb herr hch hmsg
    have h0 : ParseOpenRouterResponse b = ParseOpenRouterResponseJ j := by
      simp [ParseOpenRouterResponse, hb]
    rw [h0]
    unfold ParseOpenRouterResponseJ
    rw [herr, hch]
    simp [Json.isEmpty, jsonIndex0, hmsg]
  · intro b j c m rest hb herr hch hmsg hcontent
    have h0 : ParseOpenRouterResponse b = ParseOpenRouterResponseJ j := by
      simp [ParseOpenRouterResponse, hb]
    rw [h0]
    unfold ParseOpenRouterResponseJ
    rw [herr, hch]
    simp [Json.isEmpty, jsonIndex0, hmsg, hcontent]

/-- Witness for C7: a malformed body yields the parse-failure kind while
two well-formed bodies without the expected shape (no "choices" key;
empty "choices" array) yield the invalid-format kind. -/
theorem ParseOpenRouterResponse_failure_kinds_witness :
    ParseOpenRouterResponse "not json" = .error .parseFailed ∧
    ParseOpenRouterResponse "\x7b\"foo\":true\x7d" = .error .invalidFormat ∧
    ParseOpenRouterResponse "\x7b\"choices\":[]\x7d" = .error .invalidFormat :=
  ⟨ParseOpenRouterResponse_failure_kinds.1 "not json" rfl,
   ParseOpenRouterResponse_failure_kinds.2.1 "\x7b\"foo\":true\x7d"
     (Json.obj [("foo", Json.bool true)]) rfl rfl rfl,
   ParseOpenRouterResponse_failure_kinds.2.2.1 "\x7b\"choices\":[]\x7d"
     (Json.obj [("choices", Json.arr [])]) rfl rfl rfl⟩

/-- C2: `QueryOllamaAPI` is a total function to strings: for every
configuration, prompt and transport outcome its reply is either one of
the fixed constant fallback strings or a non-empty reply successfully
extracted by `ParseOpenRouterResponse` from the transported body of a
non-error HTTP exchange. -/
theorem QueryOllamaAPI_no_fault (cfg : Config) (prompt : String) (w : World) :
    (QueryOllamaAPI cfg prompt w).reply ∈ fallbackStrings ∨
    (∃ code body,
      w.curlResult = some (code, body) ∧
      HandleOpenRouterErrors code body = none ∧
      ParseOpenRouterResponse body = .ok (QueryOllamaAPI cfg prompt w).reply ∧
      (QueryOllamaAPI cfg prompt w).reply ≠ "") := by
  by_cases hk : cfg.openRouterApiKey = ""
  · left
    simp [QueryOllamaAPI, hk, fallbackStrings]
  · by_cases hc : w.curlInitOk
    · rcases hw : w.curlResult with _ | ⟨code, body⟩
      · left
        simp [QueryOllamaAPI, hk, hc, hw, fallbackStrings]
      · rcases he : HandleOpenRouterErrors code body with _ | err
        · rcases hp : ParseOpenRouterResponse body with e | reply
          · left
            simp [QueryOllamaAPI, hk, hc, hw, he, hp, fallbackStrings]
          · by_cases hr : reply = ""
            · left
              simp [QueryOllamaAPI, hk, hc, hw, he, hp, hr, fallbackStrings]
            · right
              refine ⟨code, body, hw ▸ rfl, he, ?_, ?_⟩
              · rw [hp]
                simp [QueryOllamaAPI, hk, hc, hw, he, hp, hr]
              · simp [QueryOllamaAPI, hk, hc, hw, he, hp, hr]
        · left
          simp [QueryOllamaAPI, hk, hc, hw, he, fallbackStrings]
    · left
      simp [QueryOllamaAPI, hk, hc, fallbackStrings]
